import Mathlib

/-!
Verification of the borrow/reservation lifecycle of the Mobile-Library-Application
backend. The definitions below are a shallow embedding of the Express route
handlers in `src/backend_server/routes/analytics.js` (borrow creation, return,
renewal) and `src/backend_server/routes/reservations.js` (reservation creation,
cancellation, expiry sweep, and the concatenated book routes). JavaScript
numbers are modelled as `Int`, `Date` values as integer milliseconds since the
epoch, and database rows as entries of lists carried in a `DB` record. Each
Prisma call that writes to the database is one observable state change; a
`prisma.$transaction([...])` block is a single observable state change that
applies all of its operations at once.
-/

namespace MobileLibrary

/-- Milliseconds in one day, the divisor `1000 * 60 * 60 * 24` used by the
fine computation in the return handler. -/
def msPerDay : Int := 1000 * 60 * 60 * 24

/-- `d.setDate(d.getDate() + n)` on a `Date`: advance a timestamp by `n` days. -/
def addDays (t : Int) (n : Int) : Int := t + n * msPerDay

/-- Borrow status values of the Prisma `Borrow` model (spec section 3). -/
inductive BorrowStatus
  | ACTIVE
  | RETURNED
  | OVERDUE
  deriving DecidableEq, Repr

/-- User roles (spec section 6). -/
inductive Role
  | STUDENT
  | STAFF
  | ADMIN
  deriving DecidableEq, Repr

/-- A `Book` row: copy counters plus the fields the book routes consult.
Text-only metadata (title, author, publisher, ...) plays no role in the
lifecycle logic and is elided; `isbn` is kept because the book-update handler
checks it for uniqueness. -/
structure Book where
  id : Nat
  isbn : Nat
  totalCopies : Int
  availableCopies : Int
  deriving DecidableEq, Repr

/-- A `Borrow` row. -/
structure Borrow where
  id : Nat
  userId : Nat
  bookId : Nat
  dueDate : Int
  returnDate : Option Int
  status : BorrowStatus
  renewalCount : Int
  fineAmount : Option Int
  deriving DecidableEq, Repr

/-- A `Reservation` row. -/
structure Reservation where
  id : Nat
  userId : Nat
  bookId : Nat
  expiryDate : Int
  isActive : Bool
  deriving DecidableEq, Repr

/-- The database state: the three tables the lifecycle handlers touch. -/
structure DB where
  books : List Book
  borrows : List Borrow
  reservations : List Reservation
  deriving DecidableEq, Repr

/-- `prisma.book.findUnique({ where: { id } })`. -/
def findBook (db : DB) (bookId : Nat) : Option Book :=
  db.books.find? (fun b => b.id == bookId)

/-- `prisma.borrow.findUnique({ where: { id } })`. -/
def findBorrow (db : DB) (borrowId : Nat) : Option Borrow :=
  db.borrows.find? (fun br => br.id == borrowId)

/-- `prisma.borrow.findFirst({ where: { userId, bookId, status: 'ACTIVE' } })`. -/
def findActiveBorrow (db : DB) (userId bookId : Nat) : Option Borrow :=
  db.borrows.find? (fun br =>
    br.userId == userId && br.bookId == bookId && br.status == BorrowStatus.ACTIVE)

/-- `prisma.reservation.findFirst({ where: { userId, bookId, isActive: true } })`. -/
def findActiveReservation (db : DB) (userId bookId : Nat) : Option Reservation :=
  db.reservations.find? (fun r => r.userId == userId && r.bookId == bookId && r.isActive)

/-- `prisma.reservation.findFirst({ where: { bookId, isActive: true,
userId: { not: userId } } })`, the query guarding renewal. -/
def findOtherUserReservation (db : DB) (bookId userId : Nat) : Option Reservation :=
  db.reservations.find? (fun r => r.bookId == bookId && r.isActive && r.userId != userId)

/-- `prisma.reservation.update({ where: { id }, data: { isActive: false } })`. -/
def deactivateReservation (db : DB) (resId : Nat) : DB :=
  { db with reservations := db.reservations.map (fun r =>
      if r.id == resId then { r with isActive := false } else r) }

/-- `prisma.book.update({ where: { id }, data: { availableCopies: { decrement: 1 } } })`. -/
def decrementAvailable (db : DB) (bookId : Nat) : DB :=
  { db with books := db.books.map (fun b =>
      if b.id == bookId then { b with availableCopies := b.availableCopies - 1 } else b) }

/-- `prisma.book.update({ where: { id }, data: { availableCopies: { increment: 1 } } })`. -/
def incrementAvailable (db : DB) (bookId : Nat) : DB :=
  { db with books := db.books.map (fun b =>
      if b.id == bookId then { b with availableCopies := b.availableCopies + 1 } else b) }

/-- Row insertion performed by `prisma.borrow.create`. -/
def insertBorrow (db : DB) (br : Borrow) : DB :=
  { db with borrows := db.borrows ++ [br] }

/-- Row insertion performed by `prisma.reservation.create`. -/
def insertReservation (db : DB) (r : Reservation) : DB :=
  { db with reservations := db.reservations ++ [r] }

/-- A fresh primary key, modelling Prisma id generation: one larger than every
id already present, hence distinct from all of them. -/
def freshId (ids : List Nat) : Nat := ids.foldr max 0 + 1

/-- Modelled from the spec: the `Borrow` row produced by `prisma.borrow.create`
with data `userId, bookId, dueDate` only. The remaining fields come from
defaults of the Prisma schema, which is not among the sources; spec section 3
gives them as `status = ACTIVE`, `renewalCount` starting at 0, and
`returnDate` / `fineAmount` unset. -/
def mkBorrow (id userId bookId : Nat) (dueDate : Int) : Borrow :=
  { id := id, userId := userId, bookId := bookId, dueDate := dueDate,
    returnDate := none, status := BorrowStatus.ACTIVE,
    renewalCount := 0, fineAmount := none }

/-- The `Reservation` row produced by `prisma.reservation.create` with data
`userId, bookId, expiryDate`; `isActive` defaults to `true` (spec section 3). -/
def mkReservation (id userId bookId : Nat) (expiryDate : Int) : Reservation :=
  { id := id, userId := userId, bookId := bookId,
    expiryDate := expiryDate, isActive := true }

/-- Rejections of the borrow-creation handler, with the HTTP status each maps to. -/
inductive BorrowError
  | bookNotFound
  | notAvailable
  | alreadyBorrowed
  deriving DecidableEq, Repr

/-- HTTP status attached to each borrow-creation rejection in the source. -/
def borrowErrorStatus : BorrowError → Nat
  | BorrowError.bookNotFound => 404
  | BorrowError.notAvailable => 400
  | BorrowError.alreadyBorrowed => 400

/-- `POST /api/borrows` (`src/backend_server/routes/analytics.js`, lines
487-583). On success the result is the list of database states observable
after each write, in order: the handler first deactivates the caller's active
reservation for the book (when one exists) with a stand-alone
`prisma.reservation.update`, and only then runs the `prisma.$transaction`
that creates the `Borrow` row and decrements `availableCopies` — so the
reservation update and the transaction are two separate observable states. -/
def createBorrow (db : DB) (userId bookId : Nat) (now : Int) :
    Except BorrowError (List DB) :=
  match findBook db bookId with
  | none => Except.error BorrowError.bookNotFound
  | some book =>
    if book.availableCopies ≤ 0 then
      Except.error BorrowError.notAvailable
    else if (findActiveBorrow db userId bookId).isSome then
      Except.error BorrowError.alreadyBorrowed
    else
      match findActiveReservation db userId bookId with
      | some r =>
          let db1 := deactivateReservation db r.id
          let nb := mkBorrow (freshId (db1.borrows.map Borrow.id)) userId bookId
            (addDays now 14)
          Except.ok [db1, decrementAvailable (insertBorrow db1 nb) bookId]
      | none =>
          let nb := mkBorrow (freshId (db.borrows.map Borrow.id)) userId bookId
            (addDays now 14)
          Except.ok [decrementAvailable (insertBorrow db nb) bookId]

/-- Rejections of the return handler. -/
inductive ReturnError
  | borrowNotFound
  | alreadyReturned
  deriving DecidableEq, Repr

/-- `Math.ceil(a / b)` for natural `a`, `b` with `b > 0`. -/
def ceilDiv (a b : Nat) : Nat := (a + b - 1) / b

/-- The row mutation of `prisma.borrow.update({ where: { id: borrowId }, data:
{ status: 'RETURNED', returnDate, fineAmount } })`, applied to each row. -/
def returnedRow (borrowId : Nat) (now : Int) (fine : Option Int) (br : Borrow) : Borrow :=
  if br.id == borrowId then
    { br with status := BorrowStatus.RETURNED, returnDate := some now,
              fineAmount := fine }
  else br

/-- `PUT /api/borrows/:id/return` (`src/backend_server/routes/analytics.js`,
lines 585-658). `daysOverdue = Math.ceil((returnDate - dueDate) / (1000*60*60*24))`
and `fineAmount = daysOverdue * 1.00` when the return is late; the row update
stores `fineAmount > 0 ? fineAmount : null`. The borrow update and the
`availableCopies` increment form one `$transaction`, a single state change. -/
def returnBorrow (db : DB) (borrowId : Nat) (now : Int) : Except ReturnError DB :=
  match findBorrow db borrowId with
  | none => Except.error ReturnError.borrowNotFound
  | some borrow =>
    if borrow.status ≠ BorrowStatus.ACTIVE then
      Except.error ReturnError.alreadyReturned
    else
      let fineAmount : Int :=
        if borrow.dueDate < now then
          (ceilDiv (now - borrow.dueDate).toNat msPerDay.toNat : Int) * 1
        else 0
      let fine : Option Int := if 0 < fineAmount then some fineAmount else none
      let rows := db.borrows.map (returnedRow borrowId now fine)
      let db1 : DB := { db with borrows := rows }
      Except.ok (incrementAvailable db1 borrow.bookId)

/-- `['STAFF', 'ADMIN'].includes(req.user.role)`. -/
def isElevated (role : Role) : Bool :=
  role == Role.STAFF || role == Role.ADMIN

/-- Rejections of the renewal handler. -/
inductive RenewError
  | borrowNotFound
  | forbidden
  | notActive
  | limitReached
  | reservationConflict
  deriving DecidableEq, Repr

/-- The row mutation of `prisma.borrow.update({ where: { id: borrowId }, data:
{ dueDate: newDueDate, renewalCount: { increment: 1 } } })`. -/
def renewedRow (borrowId : Nat) (newDueDate : Int) (br : Borrow) : Borrow :=
  if br.id == borrowId then
    { br with dueDate := newDueDate, renewalCount := br.renewalCount + 1 }
  else br

/-- `PUT /api/borrows/:id/renew` (`src/backend_server/routes/analytics.js`,
lines 660-738). The new due date is computed from the stored due date
(`new Date(borrow.dueDate)` advanced by 14 days), not from the current time;
the handler therefore takes no clock argument at all. -/
def renewBorrow (db : DB) (requesterId : Nat) (role : Role) (borrowId : Nat) :
    Except RenewError DB :=
  match findBorrow db borrowId with
  | none => Except.error RenewError.borrowNotFound
  | some borrow =>
    if borrow.userId != requesterId && !isElevated role then
      Except.error RenewError.forbidden
    else if borrow.status ≠ BorrowStatus.ACTIVE then
      Except.error RenewError.notActive
    else if 2 ≤ borrow.renewalCount then
      Except.error RenewError.limitReached
    else if (findOtherUserReservation db borrow.bookId borrow.userId).isSome then
      Except.error RenewError.reservationConflict
    else
      let rows := db.borrows.map (renewedRow borrowId (addDays borrow.dueDate 14))
      Except.ok { db with borrows := rows }

/-- The database state after a renewal request: the updated state on success,
the unchanged state on any rejection (the handler returns before any write). -/
def renewedState (db : DB) (requesterId : Nat) (role : Role) (borrowId : Nat) : DB :=
  match renewBorrow db requesterId role borrowId with
  | Except.ok db2 => db2
  | Except.error _ => db

/-- Rejections of the reservation-creation handler. -/
inductive ReserveError
  | bookNotFound
  | bookAvailable
  | alreadyReserved
  | alreadyBorrowed
  deriving DecidableEq, Repr

/-- HTTP status attached to each reservation-creation rejection in the source. -/
def reserveErrorStatus : ReserveError → Nat
  | ReserveError.bookNotFound => 404
  | ReserveError.bookAvailable => 400
  | ReserveError.alreadyReserved => 400
  | ReserveError.alreadyBorrowed => 400

/-- `POST /api/reservations` (`src/backend_server/routes/reservations.js`,
lines 77-160). -/
def createReservation (db : DB) (userId bookId : Nat) (now : Int) :
    Except ReserveError DB :=
  match findBook db bookId with
  | none => Except.error ReserveError.bookNotFound
  | some book =>
    if 0 < book.availableCopies then
      Except.error ReserveError.bookAvailable
    else if (findActiveReservation db userId bookId).isSome then
      Except.error ReserveError.alreadyReserved
    else if (findActiveBorrow db userId bookId).isSome then
      Except.error ReserveError.alreadyBorrowed
    else
      Except.ok (insertReservation db
        (mkReservation (freshId (db.reservations.map Reservation.id)) userId bookId
          (addDays now 7)))

/-- `PUT /api/reservations/cleanup-expired` (`src/backend_server/routes/reservations.js`,
lines 235-257): `prisma.reservation.updateMany` over
`{ isActive: true, expiryDate: { lt: now } }` setting `isActive: false`. -/
def cleanupExpired (db : DB) (now : Int) : DB :=
  { db with reservations := db.reservations.map (fun r =>
      if r.isActive = true ∧ r.expiryDate < now then { r with isActive := false } else r) }

/-- Rejections of the book-update handler. `invalidTotalCopies` is the
express-validator rejection of `totalCopies` below 1. -/
inductive UpdateBookError
  | invalidTotalCopies
  | bookNotFound
  | isbnConflict
  deriving DecidableEq, Repr

/-- The row mutation of the book update `prisma.book.update({ where: { id },
data: { ...req.body, availableCopies: newAvailable } })`. -/
def updatedBookRow (bookId newIsbn : Nat) (newTotalCopies newAvailable : Int)
    (b : Book) : Book :=
  if b.id == bookId then
    { b with isbn := newIsbn, totalCopies := newTotalCopies,
             availableCopies := newAvailable }
  else b

/-- `PUT /api/books/:id` (book routes concatenated into
`src/backend_server/routes/reservations.js`, lines 593-635), restricted to the
fields that matter to the copy counters: validation requires
`totalCopies ≥ 1`, and the handler recomputes
`availableCopies = Math.max(0, totalCopies - currentBorrowed)` where
`currentBorrowed = existingBook.totalCopies - existingBook.availableCopies`. -/
def updateBook (db : DB) (bookId newIsbn : Nat) (newTotalCopies : Int) :
    Except UpdateBookError DB :=
  if newTotalCopies < 1 then
    Except.error UpdateBookError.invalidTotalCopies
  else
    match findBook db bookId with
    | none => Except.error UpdateBookError.bookNotFound
    | some existingBook =>
      if (db.books.find? (fun b => b.isbn == newIsbn && b.id != bookId)).isSome then
        Except.error UpdateBookError.isbnConflict
      else
        let currentBorrowed := existingBook.totalCopies - existingBook.availableCopies
        let newAvailable := max 0 (newTotalCopies - currentBorrowed)
        let rows := db.books.map (updatedBookRow bookId newIsbn newTotalCopies newAvailable)
        Except.ok { db with books := rows }

/-- The two operations quantified over by the availability invariant:
borrow creation and return. -/
inductive LibOp
  | borrowOp (userId bookId : Nat) (now : Int)
  | returnOp (borrowId : Nat) (now : Int)
  deriving DecidableEq, Repr

/-- The state after one request: the final committed state on success, the
unchanged state on rejection. -/
def applyOp (db : DB) : LibOp → DB
  | LibOp.borrowOp u b now =>
      match createBorrow db u b now with
      | Except.ok trace => trace.getLastD db
      | Except.error _ => db
  | LibOp.returnOp borrowId now =>
      match returnBorrow db borrowId now with
      | Except.ok db2 => db2
      | Except.error _ => db

/-- A sequence of borrow/return requests. -/
def runOps (db : DB) (ops : List LibOp) : DB := ops.foldl applyOp db

/-- Number of ACTIVE borrow rows for a given book. -/
def activeBorrowCount (db : DB) (bookId : Nat) : Nat :=
  db.borrows.countP (fun br => br.bookId == bookId && br.status == BorrowStatus.ACTIVE)

/-- Primary keys are unique, as the database guarantees for Prisma ids. -/
def UniqueIds (db : DB) : Prop :=
  (db.books.map Book.id).Nodup ∧ (db.borrows.map Borrow.id).Nodup

/-- The spec's book invariant, in the inequality form that is inductive:
`availableCopies ≥ 0` and `availableCopies + (ACTIVE borrows of the book)
≤ totalCopies`. -/
def BookConsistent (db : DB) : Prop :=
  ∀ b ∈ db.books, 0 ≤ b.availableCopies ∧
    b.availableCopies + (activeBorrowCount db b.id : Int) ≤ b.totalCopies

/-! ### Basic lemmas about the embedded operations -/

theorem msPerDay_eq : msPerDay = 86400000 := by norm_num [msPerDay]

@[simp] theorem deactivateReservation_books (db : DB) (rid : Nat) :
    (deactivateReservation db rid).books = db.books := rfl

@[simp] theorem deactivateReservation_borrows (db : DB) (rid : Nat) :
    (deactivateReservation db rid).borrows = db.borrows := rfl

@[simp] theorem decrementAvailable_borrows (db : DB) (bid : Nat) :
    (decrementAvailable db bid).borrows = db.borrows := rfl

@[simp] theorem decrementAvailable_reservations (db : DB) (bid : Nat) :
    (decrementAvailable db bid).reservations = db.reservations := rfl

@[simp] theorem incrementAvailable_borrows (db : DB) (bid : Nat) :
    (incrementAvailable db bid).borrows = db.borrows := rfl

@[simp] theorem insertBorrow_books (db : DB) (nb : Borrow) :
    (insertBorrow db nb).books = db.books := rfl

@[simp] theorem insertBorrow_borrows (db : DB) (nb : Borrow) :
    (insertBorrow db nb).borrows = db.borrows ++ [nb] := rfl

/-- `find?` commutes with mapping a row-transformer that does not disturb the
predicate (in particular, one that preserves the primary key a lookup uses). -/
theorem find?_map_pred {α : Type} (f : α → α) (p : α → Bool)
    (h : ∀ x, p (f x) = p x) (l : List α) :
    (l.map f).find? p = Option.map f (l.find? p) := by
  have hpf : p ∘ f = p := funext h
  rw [List.find?_map, hpf]

/-- Every element of a list is at most the fold of `max` over it. -/
theorem le_foldr_max (a : Nat) (l : List Nat) (h : a ∈ l) :
    a ≤ l.foldr max 0 := by
  induction l with
  | nil => cases h
  | cons x xs ih =>
      rcases List.mem_cons.mp h with h1 | h1
      · subst h1; exact le_max_left _ _
      · exact le_trans (ih h1) (le_max_right _ _)

/-- A fresh id is really fresh. -/
theorem freshId_not_mem (l : List Nat) : freshId l ∉ l := by
  intro h
  have := le_foldr_max _ l h
  simp only [freshId] at this ⊢
  omega

/-- The ceiling division used for `daysOverdue`, characterised by the
two-sided bound that pins down `Math.ceil`. -/
theorem ceilDiv_bounds (a : Nat) (ha : 0 < a) :
    0 < ceilDiv a 86400000 ∧
    (ceilDiv a 86400000 - 1) * 86400000 < a ∧
    a ≤ ceilDiv a 86400000 * 86400000 := by
  unfold ceilDiv
  omega

theorem msPerDay_toNat : msPerDay.toNat = 86400000 := rfl

/-- `find?` by primary key commutes with a row-transformer that preserves the
`Borrow` primary key. -/
theorem find?_id_map (l : List Borrow) (borrowId : Nat) (g : Borrow → Borrow)
    (hg : ∀ x, (g x).id = x.id) :
    (l.map g).find? (fun br => br.id == borrowId)
      = Option.map g (l.find? (fun br => br.id == borrowId)) := by
  apply find?_map_pred
  intro x
  rw [hg]

/-- `find?` by primary key commutes with a row-transformer that preserves the
`Book` primary key. -/
theorem find?_bookId_map (l : List Book) (bookId : Nat) (g : Book → Book)
    (hg : ∀ x, (g x).id = x.id) :
    (l.map g).find? (fun b => b.id == bookId)
      = Option.map g (l.find? (fun b => b.id == bookId)) := by
  apply find?_map_pred
  intro x
  rw [hg]

theorem returnedRow_id (borrowId : Nat) (now : Int) (fine : Option Int) (br : Borrow) :
    (returnedRow borrowId now fine br).id = br.id := by
  unfold returnedRow
  split <;> rfl

theorem renewedRow_id (borrowId : Nat) (newDueDate : Int) (br : Borrow) :
    (renewedRow borrowId newDueDate br).id = br.id := by
  unfold renewedRow
  split <;> rfl

theorem updatedBookRow_id (bookId newIsbn : Nat) (t a : Int) (b : Book) :
    (updatedBookRow bookId newIsbn t a b).id = b.id := by
  unfold updatedBookRow
  split <;> rfl

/-! ### C3: fine computation on return -/

/-- C3: returning an ACTIVE borrow persists `status = RETURNED` and
`returnDate = now`; when the return is late the persisted `fineAmount` is
`some f` for the unique `f` with `(f-1)` days `<` overdue time `≤ f` days —
that is, `ceil((returnDate - dueDate) in days) × 1.00` — and when the return
is on or before the due date no fine is recorded (`fineAmount = none`). -/
theorem C3_theorem (db db2 : DB) (borrowId : Nat) (now : Int) (borrow : Borrow)
    (hfind : findBorrow db borrowId = some borrow)
    (hok : returnBorrow db borrowId now = Except.ok db2) :
    ∃ br2, findBorrow db2 borrowId = some br2 ∧
      br2.status = BorrowStatus.RETURNED ∧
      br2.returnDate = some now ∧
      (now ≤ borrow.dueDate → br2.fineAmount = none) ∧
      (borrow.dueDate < now → ∃ f, br2.fineAmount = some f ∧ 0 < f ∧
        (f - 1) * msPerDay < now - borrow.dueDate ∧
        now - borrow.dueDate ≤ f * msPerDay) := by
  have hfind2 : db.borrows.find? (fun br => br.id == borrowId) = some borrow := hfind
  have hpid : (borrow.id == borrowId) = true :=
    @List.find?_some Borrow (fun br => br.id == borrowId) borrow db.borrows hfind2
  simp only [returnBorrow, hfind] at hok
  split at hok
  · exact Except.noConfusion hok
  · rw [Except.ok.injEq] at hok
    subst hok
    set fv : Int := if borrow.dueDate < now then
        (ceilDiv (now - borrow.dueDate).toNat msPerDay.toNat : Int) * 1
      else 0 with hfv
    set F : Option Int := if 0 < fv then some fv else none with hF
    refine ⟨returnedRow borrowId now F borrow, ?_, ?_, ?_, ?_, ?_⟩
    · simp only [findBorrow, incrementAvailable_borrows]
      rw [find?_id_map _ _ _ (fun x => returnedRow_id _ _ _ x), hfind2]
      rfl
    · simp [returnedRow, hpid]
    · simp [returnedRow, hpid]
    · intro hle
      have hnl : ¬ borrow.dueDate < now := not_lt.mpr hle
      have hfv0 : fv = 0 := by rw [hfv, if_neg hnl]
      have hF0 : F = none := by rw [hF, hfv0]; norm_num
      simp [returnedRow, hpid, hF0]
    · intro hlt
      have ha : 0 < (now - borrow.dueDate).toNat := by omega
      obtain ⟨h1, h2, h3⟩ := ceilDiv_bounds _ ha
      have hcast : ((now - borrow.dueDate).toNat : Int) = now - borrow.dueDate :=
        Int.toNat_of_nonneg (by omega)
      have hfv2 : fv = (ceilDiv (now - borrow.dueDate).toNat msPerDay.toNat : Int) * 1 := by
        rw [hfv, if_pos hlt]
      have hfvpos : 0 < fv := by rw [hfv2, msPerDay_toNat]; omega
      have hFs : F = some fv := by rw [hF, if_pos hfvpos]
      refine ⟨fv, ?_, hfvpos, ?_, ?_⟩
      · simp [returnedRow, hpid, hFs]
      · rw [hfv2, msPerDay_toNat, msPerDay_eq]; omega
      · rw [hfv2, msPerDay_toNat, msPerDay_eq]; omega

def c3wBorrow : Borrow :=
  { id := 1, userId := 1, bookId := 1, dueDate := 0, returnDate := none,
    status := BorrowStatus.ACTIVE, renewalCount := 0, fineAmount := none }

def c3wDB : DB :=
  { books := [{ id := 1, isbn := 10, totalCopies := 1, availableCopies := 0 }],
    borrows := [c3wBorrow], reservations := [] }

/-- The returned row: one day and one millisecond overdue, so a fine of 2. -/
def c3wAfterBorrow : Borrow :=
  { id := 1, userId := 1, bookId := 1, dueDate := 0, returnDate := some 86400001,
    status := BorrowStatus.RETURNED, renewalCount := 0, fineAmount := some 2 }

/-- The state after returning the C3 witness borrow one day and one
millisecond past its due date. -/
def c3wAfter : DB :=
  { books := [{ id := 1, isbn := 10, totalCopies := 1, availableCopies := 1 }],
    borrows := [c3wAfterBorrow],
    reservations := [] }

/-- Witness for C3 at a concrete overdue return (fine of 2 currency units for
an overdue time of one day plus one millisecond). -/
theorem C3_theorem_witness :
    findBorrow c3wDB 1 = some c3wBorrow ∧
    returnBorrow c3wDB 1 86400001 = Except.ok c3wAfter ∧
    (∃ br2, findBorrow c3wAfter 1 = some br2 ∧
      br2.status = BorrowStatus.RETURNED ∧
      br2.returnDate = some 86400001 ∧
      (86400001 ≤ c3wBorrow.dueDate → br2.fineAmount = none) ∧
      (c3wBorrow.dueDate < 86400001 → ∃ f, br2.fineAmount = some f ∧ 0 < f ∧
        (f - 1) * msPerDay < 86400001 - c3wBorrow.dueDate ∧
        86400001 - c3wBorrow.dueDate ≤ f * msPerDay)) :=
  ⟨by decide, by rfl, C3_theorem c3wDB c3wAfter 1 86400001 c3wBorrow (by decide) (by rfl)⟩

/-! ### C4: renewal effect -/

/-- C4: a successful renewal updates exactly the renewed borrow's `dueDate`
(to the prior due date plus 14 days — the handler takes no clock input at
all) and `renewalCount` (by one); every other field of the row, every other
borrow row, every book (so every copy counter) and every reservation are
unchanged. -/
theorem C4_theorem (db db2 : DB) (requesterId : Nat) (role : Role)
    (borrowId : Nat) (borrow : Borrow)
    (hfind : findBorrow db borrowId = some borrow)
    (hok : renewBorrow db requesterId role borrowId = Except.ok db2) :
    (∃ br2, findBorrow db2 borrowId = some br2 ∧
      br2.dueDate = borrow.dueDate + 14 * msPerDay ∧
      br2.renewalCount = borrow.renewalCount + 1 ∧
      br2.id = borrow.id ∧ br2.userId = borrow.userId ∧
      br2.bookId = borrow.bookId ∧ br2.status = borrow.status ∧
      br2.returnDate = borrow.returnDate ∧ br2.fineAmount = borrow.fineAmount) ∧
    db2.books = db.books ∧
    db2.reservations = db.reservations ∧
    ∀ br ∈ db.borrows, br.id ≠ borrowId → br ∈ db2.borrows := by
  have hfind2 : db.borrows.find? (fun br => br.id == borrowId) = some borrow := hfind
  have hpid : (borrow.id == borrowId) = true :=
    @List.find?_some Borrow (fun br => br.id == borrowId) borrow db.borrows hfind2
  simp only [renewBorrow, hfind] at hok
  split at hok
  · exact Except.noConfusion hok
  split at hok
  · exact Except.noConfusion hok
  split at hok
  · exact Except.noConfusion hok
  split at hok
  · exact Except.noConfusion hok
  rw [Except.ok.injEq] at hok
  subst hok
  refine ⟨⟨renewedRow borrowId (addDays borrow.dueDate 14) borrow, ?_, ?_⟩, rfl, rfl, ?_⟩
  · simp only [findBorrow]
    rw [find?_id_map _ _ _ (fun x => renewedRow_id _ _ x), hfind2]
    rfl
  · simp [renewedRow, hpid, addDays]
  · intro br hmem hne
    have hbe : (br.id == borrowId) = false := beq_eq_false_iff_ne.mpr hne
    exact List.mem_map.mpr ⟨br, hmem, by simp [renewedRow, hbe]⟩

def c4wBorrow : Borrow :=
  { id := 1, userId := 1, bookId := 1, dueDate := 1000, returnDate := none,
    status := BorrowStatus.ACTIVE, renewalCount := 0, fineAmount := none }

def c4wDB : DB :=
  { books := [{ id := 1, isbn := 10, totalCopies := 1, availableCopies := 0 }],
    borrows := [c4wBorrow], reservations := [] }

def c4wAfterBorrow : Borrow :=
  { id := 1, userId := 1, bookId := 1, dueDate := 1000 + 14 * 86400000,
    returnDate := none, status := BorrowStatus.ACTIVE, renewalCount := 1,
    fineAmount := none }

def c4wAfter : DB :=
  { books := [{ id := 1, isbn := 10, totalCopies := 1, availableCopies := 0 }],
    borrows := [c4wAfterBorrow],
    reservations := [] }

/-- Witness for C4 at a concrete renewal by the borrow's owner. -/
theorem C4_theorem_witness :
    findBorrow c4wDB 1 = some c4wBorrow ∧
    renewBorrow c4wDB 1 Role.STUDENT 1 = Except.ok c4wAfter ∧
    ((∃ br2, findBorrow c4wAfter 1 = some br2 ∧
      br2.dueDate = c4wBorrow.dueDate + 14 * msPerDay ∧
      br2.renewalCount = c4wBorrow.renewalCount + 1 ∧
      br2.id = c4wBorrow.id ∧ br2.userId = c4wBorrow.userId ∧
      br2.bookId = c4wBorrow.bookId ∧ br2.status = c4wBorrow.status ∧
      br2.returnDate = c4wBorrow.returnDate ∧ br2.fineAmount = c4wBorrow.fineAmount) ∧
    c4wAfter.books = c4wDB.books ∧
    c4wAfter.reservations = c4wDB.reservations ∧
    ∀ br ∈ c4wDB.borrows, br.id ≠ 1 → br ∈ c4wAfter.borrows) :=
  ⟨by decide, by rfl, C4_theorem c4wDB c4wAfter 1 Role.STUDENT 1 c4wBorrow (by decide) (by rfl)⟩

/-! ### C5: borrowing an unavailable book -/

/-- C5: a borrow request for an existing book with `availableCopies = 0` is
rejected with the handler's conflict error (HTTP 400, inside the
`Conflict = 400/409` taxonomy of the spec) and the database state is
untouched. -/
theorem C5_theorem (db : DB) (u b : Nat) (now : Int) (book : Book)
    (hfind : findBook db b = some book)
    (h0 : book.availableCopies = 0) :
    createBorrow db u b now = Except.error BorrowError.notAvailable ∧
    borrowErrorStatus BorrowError.notAvailable = 400 ∧
    applyOp db (LibOp.borrowOp u b now) = db := by
  have hle : book.availableCopies ≤ 0 := le_of_eq h0
  refine ⟨?_, rfl, ?_⟩
  · simp [createBorrow, hfind, hle]
  · simp [applyOp, createBorrow, hfind, hle]

def c5wBook : Book := { id := 1, isbn := 10, totalCopies := 3, availableCopies := 0 }

def c5wDB : DB := { books := [c5wBook], borrows := [], reservations := [] }

/-- Witness for C5 at a concrete unavailable book. -/
theorem C5_theorem_witness :
    (findBook c5wDB 1 = some c5wBook ∧ c5wBook.availableCopies = 0) ∧
    (createBorrow c5wDB 7 1 0 = Except.error BorrowError.notAvailable ∧
      borrowErrorStatus BorrowError.notAvailable = 400 ∧
      applyOp c5wDB (LibOp.borrowOp 7 1 0) = c5wDB) :=
  ⟨⟨by decide, by decide⟩, C5_theorem c5wDB 7 1 0 c5wBook (by decide) (by decide)⟩

/-! ### C6: reservation creation preconditions -/

/-- C6: on an existing book with a non-negative copy counter, reservation
creation is rejected (HTTP 400, the spec's Conflict bucket) whenever
`availableCopies > 0`; and it succeeds only when `availableCopies = 0`, the
user holds no active reservation and no active borrow for the book — in which
case the sole state change is the appended new reservation row. -/
theorem C6_theorem (db : DB) (u b : Nat) (now : Int) (book : Book)
    (hfind : findBook db b = some book)
    (hnn : 0 ≤ book.availableCopies) :
    (0 < book.availableCopies →
      createReservation db u b now = Except.error ReserveError.bookAvailable ∧
      reserveErrorStatus ReserveError.bookAvailable = 400) ∧
    ∀ db2, createReservation db u b now = Except.ok db2 →
      book.availableCopies = 0 ∧
      findActiveReservation db u b = none ∧
      findActiveBorrow db u b = none ∧
      db2.books = db.books ∧ db2.borrows = db.borrows ∧
      db2.reservations = db.reservations ++
        [mkReservation (freshId (db.reservations.map Reservation.id)) u b
          (addDays now 7)] := by
  constructor
  · intro hpos
    exact ⟨by simp [createReservation, hfind, hpos], rfl⟩
  · intro db2 hok
    simp only [createReservation, hfind] at hok
    by_cases h1 : 0 < book.availableCopies
    · rw [if_pos h1] at hok
      exact Except.noConfusion hok
    rw [if_neg h1] at hok
    by_cases h2 : (findActiveReservation db u b).isSome = true
    · rw [if_pos h2] at hok
      exact Except.noConfusion hok
    rw [if_neg h2] at hok
    by_cases h3 : (findActiveBorrow db u b).isSome = true
    · rw [if_pos h3] at hok
      exact Except.noConfusion hok
    rw [if_neg h3] at hok
    rw [Except.ok.injEq] at hok
    subst hok
    refine ⟨by omega, ?_, ?_, rfl, rfl, rfl⟩
    · exact Option.not_isSome_iff_eq_none.mp h2
    · exact Option.not_isSome_iff_eq_none.mp h3

def c6wBook : Book := { id := 1, isbn := 10, totalCopies := 2, availableCopies := 0 }

def c6wDB : DB := { books := [c6wBook], borrows := [], reservations := [] }

/-- Witness for C6 at a concrete fully-borrowed book. -/
theorem C6_theorem_witness :
    (findBook c6wDB 1 = some c6wBook ∧ 0 ≤ c6wBook.availableCopies) ∧
    ((0 < c6wBook.availableCopies →
      createReservation c6wDB 9 1 0 = Except.error ReserveError.bookAvailable ∧
      reserveErrorStatus ReserveError.bookAvailable = 400) ∧
    ∀ db2, createReservation c6wDB 9 1 0 = Except.ok db2 →
      c6wBook.availableCopies = 0 ∧
      findActiveReservation c6wDB 9 1 = none ∧
      findActiveBorrow c6wDB 9 1 = none ∧
      db2.books = c6wDB.books ∧ db2.borrows = c6wDB.borrows ∧
      db2.reservations = c6wDB.reservations ++
        [mkReservation (freshId (c6wDB.reservations.map Reservation.id)) 9 1
          (addDays 0 7)]) :=
  ⟨⟨by decide, by decide⟩, C6_theorem c6wDB 9 1 0 c6wBook (by decide) (by decide)⟩

/-! ### C7: renewal limit binds every caller -/

/-- C7: once a borrow's `renewalCount` has reached 2, renewal is rejected for
every requester and every role — the role check only ever widens who may
attempt, never bypasses the limit — the state is unchanged, and for any
authorised caller (owner, or STAFF/ADMIN) the rejection is precisely the
renewal-limit error. -/
theorem C7_theorem (db : DB) (borrowId : Nat) (borrow : Borrow)
    (hfind : findBorrow db borrowId = some borrow)
    (hact : borrow.status = BorrowStatus.ACTIVE)
    (hcnt : 2 ≤ borrow.renewalCount) :
    ∀ requesterId role,
      (∀ db2, renewBorrow db requesterId role borrowId ≠ Except.ok db2) ∧
      renewedState db requesterId role borrowId = db ∧
      ((requesterId = borrow.userId ∨ isElevated role = true) →
        renewBorrow db requesterId role borrowId = Except.error RenewError.limitReached) := by
  intro requesterId role
  by_cases hown : (borrow.userId != requesterId && !isElevated role) = true
  · have hr : renewBorrow db requesterId role borrowId = Except.error RenewError.forbidden := by
      simp only [renewBorrow, hfind]
      rw [if_pos hown]
    refine ⟨?_, ?_, ?_⟩
    · intro db2 h
      rw [hr] at h
      exact Except.noConfusion h
    · simp [renewedState, hr]
    · intro hauth
      exfalso
      rcases hauth with h | h
      · subst h
        simp at hown
      · simp [h] at hown
  · have hr : renewBorrow db requesterId role borrowId = Except.error RenewError.limitReached := by
      simp only [renewBorrow, hfind]
      rw [if_neg hown, if_neg (by simp [hact]), if_pos hcnt]
    refine ⟨?_, ?_, fun _ => hr⟩
    · intro db2 h
      rw [hr] at h
      exact Except.noConfusion h
    · simp [renewedState, hr]

def c7wBorrow : Borrow :=
  { id := 1, userId := 1, bookId := 1, dueDate := 0, returnDate := none,
    status := BorrowStatus.ACTIVE, renewalCount := 2, fineAmount := none }

def c7wDB : DB :=
  { books := [{ id := 1, isbn := 10, totalCopies := 1, availableCopies := 0 }],
    borrows := [c7wBorrow], reservations := [] }

/-- Witness for C7: an ADMIN who is not the owner still hits the limit. -/
theorem C7_theorem_witness :
    (findBorrow c7wDB 1 = some c7wBorrow ∧
      c7wBorrow.status = BorrowStatus.ACTIVE ∧ 2 ≤ c7wBorrow.renewalCount) ∧
    ((∀ db2, renewBorrow c7wDB 99 Role.ADMIN 1 ≠ Except.ok db2) ∧
      renewedState c7wDB 99 Role.ADMIN 1 = c7wDB ∧
      ((99 = c7wBorrow.userId ∨ isElevated Role.ADMIN = true) →
        renewBorrow c7wDB 99 Role.ADMIN 1 = Except.error RenewError.limitReached)) :=
  ⟨⟨by decide, by decide, by decide⟩,
    C7_theorem c7wDB 1 c7wBorrow (by decide) (by decide) (by decide) 99 Role.ADMIN⟩

/-! ### C8: reservation conflict on renewal -/

/-- C8: for an authorised renewal request on an ACTIVE borrow below the
renewal limit, the request is rejected with the reservation-conflict error
exactly when some user other than the borrower holds an active reservation on
the book, and succeeds exactly otherwise — so an active reservation held by
the borrower does not block their renewal. -/
theorem C8_theorem (db : DB) (requesterId : Nat) (role : Role) (borrowId : Nat)
    (borrow : Borrow)
    (hfind : findBorrow db borrowId = some borrow)
    (hauth : requesterId = borrow.userId ∨ isElevated role = true)
    (hact : borrow.status = BorrowStatus.ACTIVE)
    (hcnt : borrow.renewalCount < 2) :
    (renewBorrow db requesterId role borrowId
        = Except.error RenewError.reservationConflict
      ↔ ∃ r ∈ db.reservations, r.bookId = borrow.bookId ∧ r.isActive = true ∧
          r.userId ≠ borrow.userId) ∧
    ((∃ db2, renewBorrow db requesterId role borrowId = Except.ok db2)
      ↔ ¬ ∃ r ∈ db.reservations, r.bookId = borrow.bookId ∧ r.isActive = true ∧
          r.userId ≠ borrow.userId) := by
  have hown : (borrow.userId != requesterId && !isElevated role) = false := by
    rcases hauth with h | h
    · subst h
      simp
    · simp [h]
  have hsome : (findOtherUserReservation db borrow.bookId borrow.userId).isSome = true ↔
      ∃ r ∈ db.reservations, r.bookId = borrow.bookId ∧ r.isActive = true ∧
        r.userId ≠ borrow.userId := by
    unfold findOtherUserReservation
    rw [List.find?_isSome]
    simp [Bool.and_eq_true, beq_iff_eq, bne_iff_ne, and_assoc]
  by_cases hres : (findOtherUserReservation db borrow.bookId borrow.userId).isSome = true
  · have hr : renewBorrow db requesterId role borrowId
        = Except.error RenewError.reservationConflict := by
      simp only [renewBorrow, hfind]
      rw [if_neg (by simp [hown]), if_neg (by simp [hact]), if_neg (by omega), if_pos hres]
    constructor
    · exact iff_of_true hr (hsome.mp hres)
    · refine iff_of_false ?_ ?_
      · intro h
        obtain ⟨db2, h⟩ := h
        rw [hr] at h
        exact Except.noConfusion h
      · intro hn
        exact hn (hsome.mp hres)
  · have hr : renewBorrow db requesterId role borrowId = Except.ok
        { db with borrows :=
            db.borrows.map (renewedRow borrowId (addDays borrow.dueDate 14)) } := by
      simp only [renewBorrow, hfind]
      rw [if_neg (by simp [hown]), if_neg (by simp [hact]), if_neg (by omega), if_neg hres]
    constructor
    · refine iff_of_false ?_ ?_
      · intro h
        rw [hr] at h
        exact Except.noConfusion h
      · intro hex
        exact hres (hsome.mpr hex)
    · exact iff_of_true ⟨_, hr⟩ (fun hex => hres (hsome.mpr hex))

def c8wBorrow : Borrow :=
  { id := 1, userId := 1, bookId := 1, dueDate := 0, returnDate := none,
    status := BorrowStatus.ACTIVE, renewalCount := 0, fineAmount := none }

def c8wRes : Reservation :=
  { id := 5, userId := 2, bookId := 1, expiryDate := 1000, isActive := true }

def c8wDB : DB :=
  { books := [{ id := 1, isbn := 10, totalCopies := 1, availableCopies := 0 }],
    borrows := [c8wBorrow], reservations := [c8wRes] }

/-- Witness for C8: another user's active reservation blocks the owner's
renewal with the reservation-conflict error. -/
theorem C8_theorem_witness :
    (findBorrow c8wDB 1 = some c8wBorrow ∧
      (1 = c8wBorrow.userId ∨ isElevated Role.STUDENT = true) ∧
      c8wBorrow.status = BorrowStatus.ACTIVE ∧ c8wBorrow.renewalCount < 2) ∧
    ((renewBorrow c8wDB 1 Role.STUDENT 1
        = Except.error RenewError.reservationConflict
      ↔ ∃ r ∈ c8wDB.reservations, r.bookId = c8wBorrow.bookId ∧ r.isActive = true ∧
          r.userId ≠ c8wBorrow.userId) ∧
    ((∃ db2, renewBorrow c8wDB 1 Role.STUDENT 1 = Except.ok db2)
      ↔ ¬ ∃ r ∈ c8wDB.reservations, r.bookId = c8wBorrow.bookId ∧ r.isActive = true ∧
          r.userId ≠ c8wBorrow.userId)) :=
  ⟨⟨by decide, Or.inl (by decide), by decide, by decide⟩,
    C8_theorem c8wDB 1 Role.STUDENT 1 c8wBorrow (by decide) (Or.inl (by decide))
      (by decide) (by decide)⟩

/-! ### C9: expiry sweep -/

/-- C9: the expiry sweep leaves books and borrows untouched, deactivates
exactly the reservations that are active with `expiryDate < now` (each other
reservation row is returned unchanged), and afterwards no reservation is both
active and expired with respect to the sweep time. -/
theorem C9_theorem (db : DB) (now : Int) :
    (cleanupExpired db now).books = db.books ∧
    (cleanupExpired db now).borrows = db.borrows ∧
    List.Forall₂ (fun r r2 =>
        r2 = if r.isActive = true ∧ r.expiryDate < now
          then { r with isActive := false } else r)
      db.reservations (cleanupExpired db now).reservations ∧
    ∀ r2 ∈ (cleanupExpired db now).reservations,
      r2.isActive = true → ¬ r2.expiryDate < now := by
  refine ⟨rfl, rfl, ?_, ?_⟩
  · simp only [cleanupExpired]
    rw [List.forall₂_map_right_iff, List.forall₂_same]
    intro r hr
    rfl
  · intro r2 h2 hact
    simp only [cleanupExpired] at h2
    obtain ⟨r, hr, rfl⟩ := List.mem_map.mp h2
    by_cases hcond : r.isActive = true ∧ r.expiryDate < now
    · rw [if_pos hcond] at hact
      simp at hact
    · rw [if_neg hcond] at hact ⊢
      exact fun hlt => hcond ⟨hact, hlt⟩

def c9wDB : DB :=
  { books := [{ id := 1, isbn := 10, totalCopies := 1, availableCopies := 0 }],
    borrows := [],
    reservations :=
      [{ id := 1, userId := 1, bookId := 1, expiryDate := 3, isActive := true },
       { id := 2, userId := 2, bookId := 1, expiryDate := 9, isActive := true },
       { id := 3, userId := 3, bookId := 1, expiryDate := 3, isActive := false }] }

/-- Witness for C9 at a concrete state holding an expired active reservation,
an unexpired active one and an inactive one, swept at time 5. -/
theorem C9_theorem_witness :
    (cleanupExpired c9wDB 5).books = c9wDB.books ∧
    (cleanupExpired c9wDB 5).borrows = c9wDB.borrows ∧
    List.Forall₂ (fun r r2 =>
        r2 = if r.isActive = true ∧ r.expiryDate < 5
          then { r with isActive := false } else r)
      c9wDB.reservations (cleanupExpired c9wDB 5).reservations ∧
    ∀ r2 ∈ (cleanupExpired c9wDB 5).reservations,
      r2.isActive = true → ¬ r2.expiryDate < 5 :=
  C9_theorem c9wDB 5

/-! ### C10: book update recomputes availableCopies -/

/-- C10: a book update accepted by validation (`totalCopies ≥ 1`) on a book
whose counters satisfy `0 ≤ availableCopies ≤ totalCopies` recomputes
`availableCopies = max 0 (newTotal - (oldTotal - oldAvailable))`, and the
updated row again satisfies `0 ≤ availableCopies ≤ totalCopies`, even when
the new total is below the number of outstanding borrowed copies. -/
theorem C10_theorem (db db2 : DB) (bookId newIsbn : Nat) (newTotal : Int)
    (book : Book)
    (hfind : findBook db bookId = some book)
    (h0 : 0 ≤ book.availableCopies)
    (h1 : book.availableCopies ≤ book.totalCopies)
    (hok : updateBook db bookId newIsbn newTotal = Except.ok db2) :
    1 ≤ newTotal ∧
    ∃ b2, findBook db2 bookId = some b2 ∧
      b2.totalCopies = newTotal ∧
      b2.availableCopies
        = max 0 (newTotal - (book.totalCopies - book.availableCopies)) ∧
      0 ≤ b2.availableCopies ∧ b2.availableCopies ≤ b2.totalCopies := by
  have hfind2 : db.books.find? (fun b => b.id == bookId) = some book := hfind
  have hpid : (book.id == bookId) = true :=
    @List.find?_some Book (fun b => b.id == bookId) book db.books hfind2
  simp only [updateBook, hfind] at hok
  split at hok
  · exact Except.noConfusion hok
  next hv =>
  split at hok
  · exact Except.noConfusion hok
  rw [Except.ok.injEq] at hok
  subst hok
  refine ⟨by omega, updatedBookRow bookId newIsbn newTotal
    (max 0 (newTotal - (book.totalCopies - book.availableCopies))) book, ?_, ?_, ?_, ?_, ?_⟩
  · simp only [findBook]
    rw [find?_bookId_map _ _ _ (fun x => updatedBookRow_id _ _ _ _ x), hfind2]
    rfl
  · simp [updatedBookRow, hpid]
  · simp [updatedBookRow, hpid]
  · simp only [updatedBookRow, hpid, if_pos]
    exact le_max_left 0 _
  · simp only [updatedBookRow, hpid, if_pos]
    exact max_le (by omega) (by omega)

def c10wBook : Book := { id := 1, isbn := 10, totalCopies := 5, availableCopies := 2 }

def c10wDB : DB := { books := [c10wBook], borrows := [], reservations := [] }

/-- Witness for C10: shrinking a book with 3 outstanding borrowed copies to a
total of 2 clamps `availableCopies` to 0, keeping the counters in range. -/
theorem C10_theorem_witness :
    (findBook c10wDB 1 = some c10wBook ∧ 0 ≤ c10wBook.availableCopies ∧
      c10wBook.availableCopies ≤ c10wBook.totalCopies) ∧
    updateBook c10wDB 1 10 2 = Except.ok
      { books := [{ id := 1, isbn := 10, totalCopies := 2, availableCopies := 0 }],
        borrows := [], reservations := [] } ∧
    (1 ≤ (2 : Int) ∧
    ∃ b2, findBook
        { books := [{ id := 1, isbn := 10, totalCopies := 2, availableCopies := 0 }],
          borrows := [], reservations := [] } 1 = some b2 ∧
      b2.totalCopies = 2 ∧
      b2.availableCopies
        = max 0 (2 - (c10wBook.totalCopies - c10wBook.availableCopies)) ∧
      0 ≤ b2.availableCopies ∧ b2.availableCopies ≤ b2.totalCopies) :=
  ⟨⟨by decide, by decide, by decide⟩, by rfl,
    C10_theorem c10wDB
      { books := [{ id := 1, isbn := 10, totalCopies := 2, availableCopies := 0 }],
        borrows := [], reservations := [] }
      1 10 2 c10wBook (by decide) (by decide) (by decide) (by rfl)⟩

/-! ### C2: atomicity of borrow creation -/

/-- C2 (amended): in every successful borrow creation, each observable
database state either shows none of the borrow-row/copy-counter effects, or
shows the borrow row appended and `availableCopies` decremented together —
those two effects are one transaction. (The reservation deactivation is a
separate earlier update; see the counterexample.) -/
theorem C2_theorem (db : DB) (u b : Nat) (now : Int) (trace : List DB)
    (hok : createBorrow db u b now = Except.ok trace) :
    ∀ s ∈ trace,
      (s.books = db.books ∧ s.borrows = db.borrows) ∨
      (∃ nb, nb.status = BorrowStatus.ACTIVE ∧ nb.userId = u ∧ nb.bookId = b ∧
        s.borrows = db.borrows ++ [nb] ∧
        s.books = (decrementAvailable db b).books) := by
  simp only [createBorrow] at hok
  cases hbook : findBook db b with
  | none =>
      simp only [hbook] at hok
      exact Except.noConfusion hok
  | some book =>
      simp only [hbook] at hok
      by_cases hav : book.availableCopies ≤ 0
      · rw [if_pos hav] at hok
        exact Except.noConfusion hok
      rw [if_neg hav] at hok
      by_cases hdup : (findActiveBorrow db u b).isSome = true
      · rw [if_pos hdup] at hok
        exact Except.noConfusion hok
      rw [if_neg hdup] at hok
      cases hres : findActiveReservation db u b with
      | some r =>
          simp only [hres] at hok
          rw [Except.ok.injEq] at hok
          subst hok
          intro s hs
          simp only [List.mem_cons, List.mem_singleton, List.not_mem_nil, or_false] at hs
          rcases hs with rfl | rfl
          · exact Or.inl ⟨rfl, rfl⟩
          · exact Or.inr ⟨mkBorrow (freshId (db.borrows.map Borrow.id)) u b
              (addDays now 14), rfl, rfl, rfl, rfl, rfl⟩
      | none =>
          simp only [hres] at hok
          rw [Except.ok.injEq] at hok
          subst hok
          intro s hs
          simp only [List.mem_singleton, List.mem_cons, List.not_mem_nil, or_false] at hs
          subst hs
          exact Or.inr ⟨mkBorrow (freshId (db.borrows.map Borrow.id)) u b
            (addDays now 14), rfl, rfl, rfl, rfl, rfl⟩

def c2Book : Book := { id := 1, isbn := 10, totalCopies := 1, availableCopies := 1 }

def c2Res : Reservation :=
  { id := 1, userId := 1, bookId := 1, expiryDate := 604800000, isActive := true }

def c2DB : DB := { books := [c2Book], borrows := [], reservations := [c2Res] }

def c2ResOff : Reservation :=
  { id := 1, userId := 1, bookId := 1, expiryDate := 604800000, isActive := false }

/-- The state observable between the reservation update and the borrow
transaction: reservation already deactivated, no borrow row, counter intact. -/
def c2Mid : DB := { books := [c2Book], borrows := [], reservations := [c2ResOff] }

def c2NewBorrow : Borrow :=
  { id := 1, userId := 1, bookId := 1, dueDate := 1209600000, returnDate := none,
    status := BorrowStatus.ACTIVE, renewalCount := 0, fineAmount := none }

def c2Fin : DB :=
  { books := [{ id := 1, isbn := 10, totalCopies := 1, availableCopies := 0 }],
    borrows := [c2NewBorrow], reservations := [c2ResOff] }

/-- Counterexample to C2 as stated: when the borrower holds an active
reservation, the successful borrow exposes an intermediate state (`c2Mid`,
distinct from both the initial and the final state) in which the reservation
has already been deactivated while the borrow row does not yet exist and
`availableCopies` is not yet decremented — so the three side effects are not
applied in one atomic step. -/
theorem C2_counterexample :
    createBorrow c2DB 1 1 0 = Except.ok [c2Mid, c2Fin] ∧
    c2DB.reservations.countP Reservation.isActive = 1 ∧
    c2Mid.reservations.countP Reservation.isActive = 0 ∧
    c2Mid.borrows = c2DB.borrows ∧
    c2Mid.books = c2DB.books ∧
    c2Mid ≠ c2DB ∧ c2Mid ≠ c2Fin :=
  ⟨by rfl, by decide, by decide, by decide, by decide, by decide, by decide⟩

/-- Witness for the amended C2 at the final trace state of a concrete borrow. -/
theorem C2_theorem_witness :
    createBorrow c2DB 1 1 0 = Except.ok [c2Mid, c2Fin] ∧
    ((c2Fin.books = c2DB.books ∧ c2Fin.borrows = c2DB.borrows) ∨
      (∃ nb, nb.status = BorrowStatus.ACTIVE ∧ nb.userId = 1 ∧ nb.bookId = 1 ∧
        c2Fin.borrows = c2DB.borrows ++ [nb] ∧
        c2Fin.books = (decrementAvailable c2DB 1).books)) :=
  ⟨by rfl, C2_theorem c2DB 1 1 0 [c2Mid, c2Fin] (by rfl) c2Fin (by decide)⟩

/-! ### C1: the availability invariant -/

theorem uniqueIds_congr (d1 d2 : DB) (hb : d1.books = d2.books)
    (hr : d1.borrows = d2.borrows) : UniqueIds d1 ↔ UniqueIds d2 := by
  unfold UniqueIds
  rw [hb, hr]

theorem bookConsistent_congr (d1 d2 : DB) (hb : d1.books = d2.books)
    (hr : d1.borrows = d2.borrows) : BookConsistent d1 ↔ BookConsistent d2 := by
  unfold BookConsistent activeBorrowCount
  rw [hb, hr]

theorem nodup_ids_map_book (l : List Book) (g : Book → Book)
    (hg : ∀ x, (g x).id = x.id) (h : (l.map Book.id).Nodup) :
    ((l.map g).map Book.id).Nodup := by
  rw [List.map_map]
  have heq : Book.id ∘ g = Book.id := funext hg
  rw [heq]
  exact h

theorem nodup_ids_map_borrow (l : List Borrow) (g : Borrow → Borrow)
    (hg : ∀ x, (g x).id = x.id) (h : (l.map Borrow.id).Nodup) :
    ((l.map g).map Borrow.id).Nodup := by
  rw [List.map_map]
  have heq : Borrow.id ∘ g = Borrow.id := funext hg
  rw [heq]
  exact h

/-- Shape of a successful borrow creation: the final committed state is the
transaction applied over a state that differs from the initial one at most in
its reservations, and the availability guard held. -/
theorem createBorrow_ok_final (db : DB) (u b : Nat) (now : Int) (trace : List DB)
    (hok : createBorrow db u b now = Except.ok trace) :
    ∃ book, findBook db b = some book ∧ 0 < book.availableCopies ∧
      ∃ db1 : DB, db1.books = db.books ∧ db1.borrows = db.borrows ∧
        trace.getLastD db
          = decrementAvailable
              (insertBorrow db1
                (mkBorrow (freshId (db.borrows.map Borrow.id)) u b (addDays now 14))) b := by
  simp only [createBorrow] at hok
  cases hbook : findBook db b with
  | none =>
      simp only [hbook] at hok
      exact Except.noConfusion hok
  | some book =>
      simp only [hbook] at hok
      by_cases hav : book.availableCopies ≤ 0
      · rw [if_pos hav] at hok
        exact Except.noConfusion hok
      rw [if_neg hav] at hok
      by_cases hdup : (findActiveBorrow db u b).isSome = true
      · rw [if_pos hdup] at hok
        exact Except.noConfusion hok
      rw [if_neg hdup] at hok
      refine ⟨book, rfl, by omega, ?_⟩
      cases hres : findActiveReservation db u b with
      | some r =>
          simp only [hres] at hok
          rw [Except.ok.injEq] at hok
          subst hok
          exact ⟨deactivateReservation db r.id, rfl, rfl, rfl⟩
      | none =>
          simp only [hres] at hok
          rw [Except.ok.injEq] at hok
          subst hok
          exact ⟨db, rfl, rfl, rfl⟩

/-- The borrow transaction (insert an ACTIVE borrow with a fresh id, decrement
the book's counter) preserves unique ids and the book invariant, thanks to
the `availableCopies > 0` guard. -/
theorem borrowWrite_preserves (db : DB) (u b : Nat) (now : Int) (book : Book)
    (hbook : findBook db b = some book)
    (hav : 0 < book.availableCopies)
    (hu : UniqueIds db) (hc : BookConsistent db) :
    UniqueIds (decrementAvailable (insertBorrow db
        (mkBorrow (freshId (db.borrows.map Borrow.id)) u b (addDays now 14))) b) ∧
    BookConsistent (decrementAvailable (insertBorrow db
        (mkBorrow (freshId (db.borrows.map Borrow.id)) u b (addDays now 14))) b) := by
  have hbook2 : db.books.find? (fun x => x.id == b) = some book := hbook
  have hbid : (book.id == b) = true :=
    @List.find?_some Book (fun x => x.id == b) book db.books hbook2
  have hbmem : book ∈ db.books := List.mem_of_find?_eq_some hbook2
  set nb : Borrow := mkBorrow (freshId (db.borrows.map Borrow.id)) u b (addDays now 14)
    with hnb
  have hbooks : (decrementAvailable (insertBorrow db nb) b).books
      = db.books.map (fun b0 => if b0.id == b then
          { b0 with availableCopies := b0.availableCopies - 1 } else b0) := rfl
  have hborrows : (decrementAvailable (insertBorrow db nb) b).borrows
      = db.borrows ++ [nb] := rfl
  have hcnt : ∀ bid, activeBorrowCount (decrementAvailable (insertBorrow db nb) b) bid
      = activeBorrowCount db bid + (if b = bid then 1 else 0) := by
    intro bid
    unfold activeBorrowCount
    rw [hborrows, List.countP_append]
    by_cases hbb : b = bid
    · simp [List.countP_cons, hnb, mkBorrow, hbb]
    · simp [List.countP_cons, hnb, mkBorrow, hbb]
  refine ⟨⟨?_, ?_⟩, ?_⟩
  · rw [hbooks]
    refine nodup_ids_map_book _ _ (fun x => ?_) hu.1
    by_cases hx : (x.id == b) = true <;> simp [hx]
  · rw [hborrows, List.map_append, List.nodup_append]
    refine ⟨hu.2, by simp, ?_⟩
    intro a ha hmem
    simp only [List.map_cons, List.map_nil, List.mem_singleton] at hmem
    subst hmem
    exact freshId_not_mem _ ha
  · intro b2 hb2
    rw [hbooks] at hb2
    obtain ⟨b0, hb0, rfl⟩ := List.mem_map.mp hb2
    obtain ⟨hA, hB⟩ := hc b0 hb0
    by_cases hid : (b0.id == b) = true
    · have hid2 : b0.id = b := by simpa using hid
      have hb0eq : b0 = book := by
        have h2 : book.id = b := by simpa using hbid
        exact List.inj_on_of_nodup_map hu.1 hb0 hbmem (by rw [hid2, h2])
      have havb0 : 0 < b0.availableCopies := by rw [hb0eq]; exact hav
      rw [if_pos hid]
      dsimp only
      rw [hcnt b0.id, if_pos hid2.symm]
      constructor
      · omega
      · omega
    · have hbne : ¬ b = b0.id := by
        intro h
        exact hid (beq_iff_eq.mpr h.symm)
      rw [if_neg hid]
      rw [hcnt b0.id, if_neg hbne, Nat.add_zero]
      exact ⟨hA, hB⟩

/-- Counting through an update of the single row with a given id: when a list
with pairwise-distinct ids contains `borrow` as the row found under
`borrowId`, and the row-transformer kills the predicate on the matched row
while leaving all other rows untouched, the count drops by exactly the
matched row's contribution. -/
theorem countP_map_update (l : List Borrow) (borrowId : Nat) (borrow : Borrow)
    (g : Borrow → Borrow) (p : Borrow → Bool)
    (hnd : (l.map Borrow.id).Nodup)
    (hfind : l.find? (fun br => br.id == borrowId) = some borrow)
    (hgm : ∀ x, x.id = borrowId → p (g x) = false)
    (hgo : ∀ x, ¬ x.id = borrowId → g x = x) :
    List.countP p (l.map g)
      = List.countP p l - (if p borrow = true then 1 else 0) ∧
    (p borrow = true → 0 < List.countP p l) := by
  induction l with
  | nil => exact absurd hfind (by simp)
  | cons x xs ih =>
      rw [List.map_cons, List.nodup_cons] at hnd
      by_cases hx : (x.id == borrowId) = true
      · have hxid : x.id = borrowId := by simpa using hx
        have hxb : x = borrow := by
          rw [@List.find?_cons_of_pos Borrow (fun br => br.id == borrowId) x xs hx] at hfind
          exact Option.some.inj hfind
        have hxs : xs.map g = xs := by
          have hother : ∀ y ∈ xs, g y = y := by
            intro y hy
            apply hgo
            intro hyid
            exact hnd.1 (by rw [hxid, ← hyid]; exact List.mem_map_of_mem Borrow.id hy)
          calc xs.map g = xs.map id := List.map_congr_left hother
            _ = xs := List.map_id xs
        constructor
        · rw [List.map_cons, hxs, List.countP_cons, List.countP_cons,
            hgm x hxid, ← hxb]
          by_cases hpx : p x = true <;> simp [hpx]
        · intro hpb
          rw [List.countP_cons, hxb]
          simp [hpb]
      · have hfind2 : xs.find? (fun br => br.id == borrowId) = some borrow := by
          rw [@List.find?_cons_of_neg Borrow (fun br => br.id == borrowId) x xs hx] at hfind
          exact hfind
        have hxid : ¬ x.id = borrowId := by simpa using hx
        obtain ⟨ih1, ih2⟩ := ih hnd.2 hfind2
        have hgx : g x = x := hgo x hxid
        constructor
        · rw [List.map_cons, List.countP_cons, List.countP_cons, hgx, ih1]
          by_cases hpb : p borrow = true
          · have hcp := ih2 hpb
            simp only [hpb, if_true]
            omega
          · simp [hpb]
        · intro hpb
          have hcp := ih2 hpb
          rw [List.countP_cons]
          omega

/-- The return transaction (mark the found ACTIVE borrow RETURNED, increment
the book's counter) preserves unique ids and the book invariant. -/
theorem return_preserves (db : DB) (borrowId : Nat) (now : Int) (db2 : DB)
    (hok : returnBorrow db borrowId now = Except.ok db2)
    (hu : UniqueIds db) (hc : BookConsistent db) :
    UniqueIds db2 ∧ BookConsistent db2 := by
  simp only [returnBorrow] at hok
  cases hfind : findBorrow db borrowId with
  | none =>
      simp only [hfind] at hok
      exact Except.noConfusion hok
  | some borrow =>
      simp only [hfind] at hok
      split at hok
      · exact Except.noConfusion hok
      next hact =>
      rw [Except.ok.injEq] at hok
      subst hok
      have hact2 : borrow.status = BorrowStatus.ACTIVE := not_ne_iff.mp hact
      have hfind2 : db.borrows.find? (fun br => br.id == borrowId) = some borrow := hfind
      have hbmem : borrow ∈ db.borrows := List.mem_of_find?_eq_some hfind2
      set fv : Int := if borrow.dueDate < now then
          (ceilDiv (now - borrow.dueDate).toNat msPerDay.toNat : Int) * 1
        else 0 with hfv
      set F : Option Int := if 0 < fv then some fv else none with hF
      have hcnt : ∀ bid, activeBorrowCount
          (incrementAvailable
            { db with borrows := db.borrows.map (returnedRow borrowId now F) }
            borrow.bookId) bid
          = activeBorrowCount db bid
            - (if (borrow.bookId == bid && borrow.status == BorrowStatus.ACTIVE)
                = true then 1 else 0) := by
        intro bid
        unfold activeBorrowCount
        exact (countP_map_update db.borrows borrowId borrow _ _ hu.2 hfind2
          (fun x hxid => by simp [returnedRow, hxid])
          (fun x hxid => by simp [returnedRow, hxid])).1
      refine ⟨⟨?_, ?_⟩, ?_⟩
      · refine nodup_ids_map_book _ _ (fun x => ?_) hu.1
        by_cases hx : (x.id == borrow.bookId) = true <;> simp [hx]
      · exact nodup_ids_map_borrow _ _ (fun x => returnedRow_id _ _ _ x) hu.2
      · intro b2 hb2
        obtain ⟨b0, hb0, rfl⟩ := List.mem_map.mp hb2
        obtain ⟨hA, hB⟩ := hc b0 hb0
        by_cases hid : (b0.id == borrow.bookId) = true
        · have hid2 : b0.id = borrow.bookId := by simpa using hid
          have hpred : (borrow.bookId == b0.id && borrow.status == BorrowStatus.ACTIVE)
              = true := by simp [hact2, hid2]
          have hposcnt : 0 < activeBorrowCount db b0.id := by
            unfold activeBorrowCount
            exact List.countP_pos_iff.mpr ⟨borrow, hbmem, by simp [hact2, hid2]⟩
          rw [if_pos hid]
          dsimp only
          rw [hcnt b0.id, if_pos hpred]
          constructor
          · omega
          · omega
        · have hid2 : ¬ b0.id = borrow.bookId := by simpa using hid
          have hpred : (borrow.bookId == b0.id && borrow.status == BorrowStatus.ACTIVE)
              = false := by
            have hne : ¬ borrow.bookId = b0.id := fun h => hid2 h.symm
            simp [hne]
          rw [if_neg hid]
          rw [hcnt b0.id, hpred]
          simp only [Bool.false_eq_true, if_false, Nat.sub_zero]
          exact ⟨hA, hB⟩

/-- One borrow/return request preserves unique ids and the book invariant. -/
theorem applyOp_preserves (db : DB) (op : LibOp)
    (hu : UniqueIds db) (hc : BookConsistent db) :
    UniqueIds (applyOp db op) ∧ BookConsistent (applyOp db op) := by
  cases op with
  | borrowOp u b now =>
      cases hok : createBorrow db u b now with
      | error e =>
          simp only [applyOp, hok]
          exact ⟨hu, hc⟩
      | ok trace =>
          simp only [applyOp, hok]
          obtain ⟨book, hbook, hav, db1, hbk, hbr, hlast⟩ :=
            createBorrow_ok_final db u b now trace hok
          rw [hlast]
          have h1 : (decrementAvailable (insertBorrow db1
              (mkBorrow (freshId (db.borrows.map Borrow.id)) u b (addDays now 14))) b).books
              = (decrementAvailable (insertBorrow db
              (mkBorrow (freshId (db.borrows.map Borrow.id)) u b (addDays now 14))) b).books := by
            simp only [decrementAvailable, insertBorrow, hbk]
          have h2 : (decrementAvailable (insertBorrow db1
              (mkBorrow (freshId (db.borrows.map Borrow.id)) u b (addDays now 14))) b).borrows
              = (decrementAvailable (insertBorrow db
              (mkBorrow (freshId (db.borrows.map Borrow.id)) u b (addDays now 14))) b).borrows := by
            simp only [decrementAvailable_borrows, insertBorrow_borrows, hbr]
          rw [uniqueIds_congr _ _ h1 h2, bookConsistent_congr _ _ h1 h2]
          exact borrowWrite_preserves db u b now book hbook hav hu hc
  | returnOp borrowId now =>
      cases hok : returnBorrow db borrowId now with
      | error e =>
          simp only [applyOp, hok]
          exact ⟨hu, hc⟩
      | ok db2 =>
          simp only [applyOp, hok]
          exact return_preserves db borrowId now db2 hok hu hc

/-- Any sequence of borrow/return requests preserves unique ids and the book
invariant. -/
theorem runOps_preserves (db : DB) (ops : List LibOp)
    (hu : UniqueIds db) (hc : BookConsistent db) :
    UniqueIds (runOps db ops) ∧ BookConsistent (runOps db ops) := by
  induction ops generalizing db with
  | nil => exact ⟨hu, hc⟩
  | cons op rest ih =>
      obtain ⟨hu2, hc2⟩ := applyOp_preserves db op hu hc
      simp only [runOps, List.foldl_cons]
      exact ih (applyOp db op) hu2 hc2

/-- C1 (amended): starting from a state with pairwise-distinct row ids in
which every book satisfies `0 ≤ availableCopies` and
`availableCopies + (count of its ACTIVE borrows) ≤ totalCopies` — in
particular any state with `availableCopies = totalCopies` and no pre-existing
ACTIVE borrows — every sequence of borrow-creation and return requests keeps
every book's `availableCopies` within `[0, totalCopies]`: borrow creation
decrements only under its `availableCopies > 0` guard, return increments only
for a borrow found ACTIVE, and both preserve the invariant. -/
theorem C1_theorem (db : DB) (ops : List LibOp)
    (hu : UniqueIds db) (hc : BookConsistent db) :
    ∀ bk ∈ (runOps db ops).books,
      0 ≤ bk.availableCopies ∧ bk.availableCopies ≤ bk.totalCopies := by
  obtain ⟨hu2, hc2⟩ := runOps_preserves db ops hu hc
  intro bk hbk
  obtain ⟨h1, h2⟩ := hc2 bk hbk
  exact ⟨h1, by omega⟩

def c1Book : Book := { id := 1, isbn := 10, totalCopies := 1, availableCopies := 1 }

def c1Borrow : Borrow :=
  { id := 1, userId := 1, bookId := 1, dueDate := 0, returnDate := none,
    status := BorrowStatus.ACTIVE, renewalCount := 0, fineAmount := none }

def c1DB : DB := { books := [c1Book], borrows := [c1Borrow], reservations := [] }

def c1After : Book := { id := 1, isbn := 10, totalCopies := 1, availableCopies := 2 }

/-- Counterexample to C1 as stated: its per-operation precondition — only
`0 ≤ availableCopies ≤ totalCopies` — is not preserved by return. In a state
satisfying it (`availableCopies = totalCopies = 1`) that also holds a
pre-existing ACTIVE borrow of the book, returning that borrow increments
`availableCopies` to 2, above `totalCopies`. -/
theorem C1_counterexample :
    (0 ≤ c1Book.availableCopies ∧ c1Book.availableCopies ≤ c1Book.totalCopies) ∧
    (runOps c1DB [LibOp.returnOp 1 0]).books.head? = some c1After ∧
    ¬ c1After.availableCopies ≤ c1After.totalCopies :=
  ⟨⟨by decide, by decide⟩, by rfl, by decide⟩

def c1wDB : DB :=
  { books := [{ id := 1, isbn := 10, totalCopies := 2, availableCopies := 2 }],
    borrows := [], reservations := [] }

def c1wOps : List LibOp :=
  [LibOp.borrowOp 1 1 0, LibOp.borrowOp 2 1 0, LibOp.returnOp 1 5]

def c1wFinalBook : Book :=
  { id := 1, isbn := 10, totalCopies := 2, availableCopies := 1 }

/-- Witness for the amended C1: two borrows and a return on a fresh two-copy
book leave its counter at 1, inside `[0, totalCopies]`. -/
theorem C1_theorem_witness :
    (UniqueIds c1wDB ∧ BookConsistent c1wDB) ∧
    (0 ≤ c1wFinalBook.availableCopies ∧
      c1wFinalBook.availableCopies ≤ c1wFinalBook.totalCopies) :=
  ⟨⟨by unfold UniqueIds; decide, by unfold BookConsistent activeBorrowCount; decide⟩,
    C1_theorem c1wDB c1wOps (by unfold UniqueIds; decide)
      (by unfold BookConsistent activeBorrowCount; decide) c1wFinalBook (by decide)⟩

end MobileLibrary
